import Mathlib

/-!
# Verification of the event-driven task-automation subsystem

Shallow embedding, in Lean 4, of the core components of the backend:
the Dapr state-store conversation helpers (`app/services/state_store.py`),
the event publisher, the circuit breaker, the idempotency ledger, the
event handlers and the recurrence calculator.

Python strings are embedded as Lean `String` except where the proofs
need to reason about individual characters (the state-key format), where
they are embedded as `List Char`.  Python `datetime` values are embedded
as a `DateTime` record of calendar fields; wall-clock instants used by
the circuit breaker are embedded as natural numbers (seconds).  Stateful
code is embedded by explicit state passing.
-/

/-! ## State store helpers (`app/services/state_store.py`) -/

/-- `MAX_MESSAGES` from `state_store.py` (env default `"200"`). -/
def MAX_MESSAGES : Nat := 200

/-- `MESSAGE_WINDOW_SIZE` from `state_store.py` (env default `"50"`). -/
def MESSAGE_WINDOW_SIZE : Nat := 50

/-- A chat message dict as built by `add_message_to_state`. -/
structure Message where
  role : String
  content : String
  timestamp : String
  tool_calls : Option (List String) := none
deriving DecidableEq, Repr

/-- A conversation state dict as built by `create_empty_conversation_state`. -/
structure ConversationState where
  conversation_id : String
  user_id : String
  created_at : String
  updated_at : String
  messages : List Message
deriving DecidableEq, Repr

/-- `create_empty_conversation_state(user_id, conversation_id)`; the wall-clock
timestamp `datetime.utcnow().isoformat()+"Z"` is passed in as `now`. -/
def create_empty_conversation_state (user_id conversation_id now : String) :
    ConversationState :=
  { conversation_id := conversation_id
    user_id := user_id
    created_at := now
    updated_at := now
    messages := [] }

/-- The message record built by `add_message_to_state`: the `tool_calls` key is
set only when the argument is truthy (Python `if tool_calls:`), so `some []`
behaves like `none`. -/
def build_message (role content : String) (tool_calls : Option (List String))
    (now : String) : Message :=
  { role := role
    content := content
    timestamp := now
    tool_calls :=
      match tool_calls with
      | some l => if l.isEmpty then none else some l
      | none => none }

/-- `add_message_to_state(state, role, content, tool_calls)`: append the new
message, bump `updated_at`, then truncate to the last `MAX_MESSAGES` messages
(Python `messages[-MAX_MESSAGES:]`) when the limit is exceeded. -/
def add_message_to_state (state : ConversationState) (role content : String)
    (tool_calls : Option (List String)) (now : String) : ConversationState :=
  let msgs := state.messages ++ [build_message role content tool_calls now]
  let msgs' :=
    if MAX_MESSAGES < msgs.length then msgs.drop (msgs.length - MAX_MESSAGES)
    else msgs
  { state with messages := msgs', updated_at := now }

/-- `get_recent_messages(state, limit)`: the last `window` messages, where
`window` is `limit or MESSAGE_WINDOW_SIZE` (Python `or`: `none` and `some 0`
both fall back to the default). -/
def get_recent_messages (state : ConversationState) (limit : Option Nat) :
    List Message :=
  let window :=
    match limit with
    | some n => if n = 0 then MESSAGE_WINDOW_SIZE else n
    | none => MESSAGE_WINDOW_SIZE
  if window < state.messages.length then
    state.messages.drop (state.messages.length - window)
  else state.messages

/-- The characters of the literal `"chat:"` used by the state-key format. -/
def chatTag : List Char := ['c', 'h', 'a', 't', ':']

/-- Embedding of Python `str.split(":")` on a string viewed as `List Char`. -/
def splitOnColon : List Char → List (List Char)
  | [] => [[]]
  | a :: rest =>
    let r := splitOnColon rest
    if a = ':' then [] :: r
    else
      match r with
      | [] => [[a]]
      | p :: ps => (a :: p) :: ps

/-- `generate_state_key(user_id, conversation_id)`:
the f-string `f"chat:{user_id}:{conversation_id}"`. -/
def generate_state_key (user_id conversation_id : List Char) : List Char :=
  chatTag ++ user_id ++ ':' :: conversation_id

/-- `validate_state_key(key, expected_user_id)`: key must start with `"chat:"`,
split on `":"` into exactly three parts, and have middle part equal to
`expected_user_id`. -/
def validate_state_key (key expected_user_id : List Char) : Bool :=
  if chatTag.isPrefixOf key then
    match splitOnColon key with
    | [_, u, _] => u = expected_user_id
    | _ => false
  else false

/-! ## Circuit breaker

Modelled from the spec: `app/events/handlers.py` (class `CircuitBreaker`,
`get_circuit_breaker`, `with_circuit_breaker`) is absent from the source
tree — only its tests and re-exports are present.  The model follows the
spec's state machine (§4.3) and the exported test surface.  Wall-clock
instants are natural numbers; `time.time()` readings are passed in as
`now`. -/

/-- The three circuit-breaker states. -/
inductive BreakerState where
  | CLOSED
  | OPEN
  | HALF_OPEN
deriving DecidableEq, Repr

/-- Modelled from the spec: per-dependency circuit breaker record
(`state`, `failure_count`, `last_failure_time`, `failure_threshold`,
`reset_timeout`). -/
structure CircuitBreaker where
  state : BreakerState
  failure_count : Nat
  last_failure_time : Option Nat
  failure_threshold : Nat
  reset_timeout : Nat
deriving DecidableEq, Repr

/-- Modelled from the spec: a freshly constructed breaker starts CLOSED with
`failure_count = 0` and no recorded failure time. -/
def CircuitBreaker.mk' (failure_threshold reset_timeout : Nat) : CircuitBreaker :=
  { state := BreakerState.CLOSED
    failure_count := 0
    last_failure_time := none
    failure_threshold := failure_threshold
    reset_timeout := reset_timeout }

/-- Modelled from the spec: `record_failure()`.  In CLOSED the failure count
is incremented and reaching `failure_threshold` trips the breaker OPEN,
recording `last_failure_time`; in HALF_OPEN a failure transitions back to
OPEN and resets the failure timer; in OPEN the count and timer are updated. -/
def CircuitBreaker.record_failure (b : CircuitBreaker) (now : Nat) : CircuitBreaker :=
  match b.state with
  | BreakerState.CLOSED =>
    let fc := b.failure_count + 1
    if b.failure_threshold ≤ fc then
      { b with state := BreakerState.OPEN, failure_count := fc,
               last_failure_time := some now }
    else
      { b with failure_count := fc, last_failure_time := some now }
  | BreakerState.HALF_OPEN =>
    { b with state := BreakerState.OPEN, failure_count := b.failure_count + 1,
             last_failure_time := some now }
  | BreakerState.OPEN =>
    { b with failure_count := b.failure_count + 1, last_failure_time := some now }

/-- Modelled from the spec: `record_success()`.  Any success resets
`failure_count` to 0; a success in HALF_OPEN closes the circuit. -/
def CircuitBreaker.record_success (b : CircuitBreaker) : CircuitBreaker :=
  match b.state with
  | BreakerState.HALF_OPEN =>
    { b with state := BreakerState.CLOSED, failure_count := 0 }
  | _ => { b with failure_count := 0 }

/-- Modelled from the spec: `is_open()`.  Lazy OPEN→HALF_OPEN transition:
once `reset_timeout` has elapsed since `last_failure_time`, the check
transitions to HALF_OPEN and reports not-open; otherwise an OPEN breaker
reports open and the other states report not-open.  The check both returns
the answer and mutates the breaker, so it is embedded as a pair. -/
def CircuitBreaker.is_open (b : CircuitBreaker) (now : Nat) :
    Bool × CircuitBreaker :=
  match b.state with
  | BreakerState.OPEN =>
    match b.last_failure_time with
    | some t =>
      if t + b.reset_timeout ≤ now then
        (false, { b with state := BreakerState.HALF_OPEN })
      else (true, b)
    | none => (true, b)
  | _ => (false, b)

/-- Iterated `record_failure` at a fixed clock reading (the consecutive
failures of the spec's CLOSED→OPEN scenario). -/
def CircuitBreaker.iterate_failures (b : CircuitBreaker) (now : Nat) :
    Nat → CircuitBreaker
  | 0 => b
  | n + 1 => (b.iterate_failures now n).record_failure now

/-- Outcome of invoking the wrapped downstream callable: a normal return or
a raised exception (exceptions carry their message). -/
inductive CallOutcome (A : Type) where
  | ok (a : A)
  | raises (e : String)
deriving DecidableEq, Repr

/-- What the circuit-breaker wrapper produced: the caller-visible outcome
(`ok none` when the call was short-circuited), the updated breaker, and
whether the downstream callable was actually invoked. -/
structure WrapResult (A : Type) where
  result : CallOutcome (Option A)
  breaker : CircuitBreaker
  invoked : Bool
deriving DecidableEq, Repr

/-- Modelled from the spec: the `with_circuit_breaker` decorator.  When the
breaker reports open the downstream callable is not invoked and the wrapper
returns `none` without raising; otherwise the callable runs: an exception
records a failure and is re-raised, a normal return records a success and is
returned. -/
def with_circuit_breaker {A : Type} (b : CircuitBreaker) (now : Nat)
    (call : CallOutcome A) : WrapResult A :=
  let p := b.is_open now
  if p.1 then
    { result := CallOutcome.ok none, breaker := p.2, invoked := false }
  else
    match call with
    | CallOutcome.ok a =>
      { result := CallOutcome.ok (some a), breaker := p.2.record_success,
        invoked := true }
    | CallOutcome.raises e =>
      { result := CallOutcome.raises e, breaker := p.2.record_failure now,
        invoked := true }

/-! ## Event publisher

Modelled from the spec: `app/events/publisher.py` (class `EventPublisher`,
`publish_event`, `get_publisher`) is absent from the source tree — only its
tests and re-exports are present.  The model follows spec §4.1/§6 and the
exported test surface.  The `uuid4` generator is embedded as a monotone
counter carried in the publisher state (the spec's contract is only that
each envelope gets a fresh unique `id`); the transport is embedded as an
explicit outcome parameter. -/

/-- What the HTTP POST to the Dapr sidecar did: a response with some status
code, a connection error, a timeout, or some other unexpected exception. -/
inductive TransportOutcome where
  | response (status : Nat)
  | connect_error
  | timeout_error
  | unexpected_error
deriving DecidableEq, Repr

/-- The event payload as sent on the wire: the caller's `data` dict plus the
`user_id` and `timestamp` entries the publisher adds. -/
structure EnvelopeData where
  payload : List (String × String)
  user_id : String
  timestamp : Nat
deriving DecidableEq, Repr

/-- The CloudEvents 1.0 envelope built by `publish` (mirrors the `CloudEvent`
model in `app/events/schemas.py`). -/
structure CloudEvent where
  specversion : String
  type : String
  source : String
  id : Nat
  time : Nat
  partitionkey : String
  data : EnvelopeData
deriving DecidableEq, Repr

/-- Publisher state: the fresh-id generator (embedding of `uuid4`). -/
structure PublisherState where
  next_id : Nat
deriving DecidableEq, Repr

/-- Modelled from the spec: success statuses of the broker POST
(2xx = 200/201/204). -/
def is_success_status (status : Nat) : Bool :=
  status = 200 || status = 201 || status = 204

/-- Modelled from the spec: `EventPublisher.publish(topic, event_type, data,
user_id, source)`.  Builds the envelope with a fresh `id`, current `time`,
`partitionkey = user_id` and `data` enriched with `user_id`/`timestamp`,
POSTs it, and returns `true` exactly on a 2xx response; every transport
failure is caught and reported as `false` (the function is total: nothing
propagates to the caller).  Returns the envelope, the boolean result, and
the advanced publisher state. -/
def EventPublisher.publish (ps : PublisherState) (topic event_type : String)
    (data : List (String × String)) (user_id source : String) (now : Nat)
    (outcome : TransportOutcome) : CloudEvent × Bool × PublisherState :=
  let envelope : CloudEvent :=
    { specversion := "1.0"
      type := event_type
      source := source
      id := ps.next_id
      time := now
      partitionkey := user_id
      data := { payload := data, user_id := user_id, timestamp := now } }
  let result :=
    match outcome with
    | TransportOutcome.response status => is_success_status status
    | _ => false
  let _ := topic
  (envelope, result, { next_id := ps.next_id + 1 })

/-! ## Recurrence calculator

Modelled from the spec: `calculate_next_due_date` in
`app/events/handlers.py` is absent from the source tree.  The model follows
spec §4.5 and the tests: `"daily"`/`"weekly"` add 1/7 calendar days
(`timedelta`), `"monthly"` adds one calendar month with the day clamped to
the target month's length (`dateutil.relativedelta`), anything else falls
back to the daily rule.  Python `datetime` values are embedded as calendar
records. -/

/-- A Python `datetime` embedded as its calendar fields. -/
structure DateTime where
  year : Nat
  month : Nat
  day : Nat
  hour : Nat
  minute : Nat
  second : Nat
deriving DecidableEq, Repr

/-- Gregorian leap-year rule. -/
def isLeapYear (y : Nat) : Bool :=
  (y % 4 = 0 && y % 100 ≠ 0) || y % 400 = 0

/-- Number of days in a month of the Gregorian calendar. -/
def daysInMonth (y m : Nat) : Nat :=
  if m = 2 then (if isLeapYear y then 29 else 28)
  else if m = 4 || m = 6 || m = 9 || m = 11 then 30
  else 31

/-- The calendar successor day, keeping the time of day. -/
def DateTime.nextDay (d : DateTime) : DateTime :=
  if d.day < daysInMonth d.year d.month then { d with day := d.day + 1 }
  else if d.month < 12 then { d with month := d.month + 1, day := 1 }
  else { d with year := d.year + 1, month := 1, day := 1 }

/-- `timedelta(days = n)` on a datetime: `n` calendar successor steps. -/
def DateTime.addDays (d : DateTime) : Nat → DateTime
  | 0 => d
  | n + 1 => d.nextDay.addDays n

/-- `relativedelta(months = 1)`: one calendar month later, the day clamped to
the length of the resulting month, the time of day kept. -/
def DateTime.addOneMonth (d : DateTime) : DateTime :=
  let y := if d.month = 12 then d.year + 1 else d.year
  let m := if d.month = 12 then 1 else d.month + 1
  { d with year := y, month := m, day := min d.day (daysInMonth y m) }

/-- Lexicographic strict order on datetimes (Python `datetime` comparison). -/
def DateTime.ltb (a b : DateTime) : Bool :=
  if a.year ≠ b.year then decide (a.year < b.year)
  else if a.month ≠ b.month then decide (a.month < b.month)
  else if a.day ≠ b.day then decide (a.day < b.day)
  else if a.hour ≠ b.hour then decide (a.hour < b.hour)
  else if a.minute ≠ b.minute then decide (a.minute < b.minute)
  else decide (a.second < b.second)

/-- Modelled from the spec: `calculate_next_due_date(current_due_date,
interval)` — `"daily"` → +1 day, `"weekly"` → +7 days, `"monthly"` → +1
clamped calendar month, any other interval → the daily rule. -/
def calculate_next_due_date (current : DateTime) (interval : String) : DateTime :=
  if interval = "daily" then current.addDays 1
  else if interval = "weekly" then current.addDays 7
  else if interval = "monthly" then current.addOneMonth
  else current.addDays 1

/-! ## Event handlers

Modelled from the spec: the handlers of `app/events/handlers.py`
(`handle_task_created`, `handle_task_updated`, `handle_task_completed`,
`handle_task_deleted`, `handle_reminder_scheduled`,
`handle_reminder_triggered`, the idempotency ledger `_processed_events` with
`_is_event_processed` / `_mark_event_processed`, `_is_handler_generated`
and `_validate_event_data`) are absent from the source tree — only their
tests and re-exports are present.  The model follows spec §4.2/§4.4 and the
exported test surface.  The module-level mutable state (the idempotency set
and the side effects of publishing, job scheduling, task creation and
notification creation) is embedded as an explicit `World` record threaded
through the handlers. -/

/-- `HANDLER_SOURCE`: the reserved envelope source for handler-emitted
events. -/
def HANDLER_SOURCE : String := "handler"

/-- `BACKEND_SOURCE`: the primary backend's envelope source. -/
def BACKEND_SOURCE : String := "todo-backend"

/-- `_is_handler_generated(source)`: detects handler-emitted events. -/
def is_handler_generated (source : String) : Bool :=
  source = HANDLER_SOURCE

/-- Handler result status (`"ok"`, `"skipped"`, `"error"`). -/
inductive Status where
  | ok
  | skipped
  | error
deriving DecidableEq, Repr

/-- Handler result dict: `{status, actions, reason?}`. -/
structure HandlerResult where
  status : Status
  actions : List String
  reason : Option String
deriving DecidableEq, Repr

/-- A recorded `publish_event` call made by a handler (the derived
`reminder.scheduled` event with its payload). -/
structure PublishCall where
  topic : String
  event_type : String
  source : String
  task_id : Nat
  user_id : String
  remind_at : DateTime
deriving DecidableEq, Repr

/-- The next instance of a recurring task materialized by
`handle_task_completed`. -/
structure NextTask where
  task_id : Nat
  user_id : String
  due_date : DateTime
deriving DecidableEq, Repr

/-- The handler-visible mutable world: the idempotency ledger
(`_processed_events`), the derived events published, the recurring task
instances created, the scheduled trigger jobs and the notifications. -/
structure World where
  processed : List String
  published : List PublishCall
  created_tasks : List NextTask
  scheduled_jobs : List (Nat × DateTime)
  notifications : List (String × String)
deriving DecidableEq, Repr

/-- `_is_event_processed(event_id)`: membership in the ledger. -/
def is_event_processed (w : World) (event_id : String) : Bool :=
  event_id ∈ w.processed

/-- `_mark_event_processed(event_id)`: insert into the ledger. -/
def mark_event_processed (w : World) (event_id : String) : World :=
  { w with processed := event_id :: w.processed }

/-- The initial world: empty ledger, nothing published, created, scheduled
or notified. -/
def emptyWorld : World :=
  { processed := [], published := [], created_tasks := [],
    scheduled_jobs := [], notifications := [] }

/-- An inbound event's `event_data` mapping: a dict embedded as a record of
optional fields (a missing key is `none`). -/
structure EventData where
  task_id : Option Nat := none
  user_id : Option String := none
  title : Option String := none
  due_date : Option DateTime := none
  changed_fields : Option (List String) := none
  completed : Option Bool := none
  is_recurring : Option Bool := none
  recurring_interval : Option String := none
  remind_at : Option DateTime := none
  task_title : Option String := none
deriving DecidableEq, Repr

/-- The common handler skeleton (spec §4.4): refuse handler-sourced events,
skip duplicates via the ledger, reject events missing required fields with
an `error` status, otherwise run the business logic and mark the event
processed only after it completed with status `ok`. -/
def run_handler (validate : EventData → Bool)
    (logic : EventData → World → HandlerResult × World)
    (data : EventData) (event_id source : String) (w : World) :
    HandlerResult × World :=
  if is_handler_generated source then
    ({ status := Status.skipped, actions := [],
       reason := some "handler_generated" }, w)
  else if is_event_processed w event_id then
    ({ status := Status.skipped, actions := [], reason := some "duplicate" }, w)
  else if validate data then
    let r := logic data w
    if r.1.status = Status.ok then (r.1, mark_event_processed r.2 event_id)
    else r
  else
    ({ status := Status.error, actions := [],
       reason := some "missing_required_fields" }, w)

/-- Business logic of `handle_task_created`: when `due_date` is present and
strictly in the future, publish a `reminder.scheduled` event tagged with the
handler source and report the `"reminder_scheduled"` action. -/
def task_created_logic (now : DateTime) (data : EventData) (w : World) :
    HandlerResult × World :=
  match data.due_date with
  | some d =>
    if now.ltb d then
      ({ status := Status.ok, actions := ["reminder_scheduled"], reason := none },
       { w with published := w.published ++
          [{ topic := "reminders", event_type := "reminder.scheduled",
             source := HANDLER_SOURCE, task_id := data.task_id.getD 0,
             user_id := data.user_id.getD "", remind_at := d }] })
    else ({ status := Status.ok, actions := [], reason := none }, w)
  | none => ({ status := Status.ok, actions := [], reason := none }, w)

/-- `handle_task_created(event_data, event_id)`; the processing-time clock
reading and the envelope source are passed in explicitly. -/
def handle_task_created (now : DateTime) (data : EventData)
    (event_id source : String) (w : World) : HandlerResult × World :=
  run_handler (fun d => d.task_id.isSome && d.user_id.isSome)
    (task_created_logic now) data event_id source w

/-- Business logic of `handle_task_updated`: when `"due_date"` is among
`changed_fields` and the new `due_date` is present, publish a reschedule
`reminder.scheduled` event and report `"reminder_rescheduled"`. -/
def task_updated_logic (data : EventData) (w : World) :
    HandlerResult × World :=
  match data.due_date with
  | some d =>
    if (data.changed_fields.getD []).contains "due_date" then
      ({ status := Status.ok, actions := ["reminder_rescheduled"], reason := none },
       { w with published := w.published ++
          [{ topic := "reminders", event_type := "reminder.scheduled",
             source := HANDLER_SOURCE, task_id := data.task_id.getD 0,
             user_id := data.user_id.getD "", remind_at := d }] })
    else ({ status := Status.ok, actions := [], reason := none }, w)
  | none => ({ status := Status.ok, actions := [], reason := none }, w)

/-- `handle_task_updated(event_data, event_id)`. -/
def handle_task_updated (data : EventData) (event_id source : String)
    (w : World) : HandlerResult × World :=
  run_handler
    (fun d => d.task_id.isSome && d.user_id.isSome && d.changed_fields.isSome)
    task_updated_logic data event_id source w

/-- Business logic of `handle_task_completed`: only acts on
`completed = true` of a recurring task with an interval and a due date; the
next instance is materialized via the recurrence calculator, and only when a
database session handle is available (otherwise the handler completes with
no action). -/
def task_completed_logic (session : Option Unit) (data : EventData)
    (w : World) : HandlerResult × World :=
  if data.completed.getD false then
    match data.is_recurring.getD false, data.recurring_interval, data.due_date,
        session with
    | true, some interval, some d, some _ =>
      ({ status := Status.ok, actions := ["recurring_instance_created"],
         reason := none },
       { w with created_tasks := w.created_tasks ++
          [{ task_id := data.task_id.getD 0, user_id := data.user_id.getD "",
             due_date := calculate_next_due_date d interval }] })
    | _, _, _, _ => ({ status := Status.ok, actions := [], reason := none }, w)
  else ({ status := Status.ok, actions := [], reason := none }, w)

/-- `handle_task_completed(event_data, event_id, session)`. -/
def handle_task_completed (session : Option Unit) (data : EventData)
    (event_id source : String) (w : World) : HandlerResult × World :=
  run_handler
    (fun d => d.task_id.isSome && d.user_id.isSome && d.completed.isSome)
    (task_completed_logic session) data event_id source w

/-- Business logic of `handle_task_deleted`: always cancels any scheduled
reminders for the task (an idempotent no-op when none existed) and reports
`"reminders_cancelled"`. -/
def task_deleted_logic (data : EventData) (w : World) :
    HandlerResult × World :=
  ({ status := Status.ok, actions := ["reminders_cancelled"], reason := none },
   { w with scheduled_jobs :=
      w.scheduled_jobs.filter (fun j => j.1 ≠ data.task_id.getD 0) })

/-- `handle_task_deleted(event_data, event_id)`. -/
def handle_task_deleted (data : EventData) (event_id source : String)
    (w : World) : HandlerResult × World :=
  run_handler (fun d => d.task_id.isSome && d.user_id.isSome)
    task_deleted_logic data event_id source w

/-- Business logic of `handle_reminder_scheduled`: schedule the delayed
trigger job for `remind_at` and report `"job_scheduled"`. -/
def reminder_scheduled_logic (data : EventData) (w : World) :
    HandlerResult × World :=
  ({ status := Status.ok, actions := ["job_scheduled"], reason := none },
   { w with scheduled_jobs := w.scheduled_jobs ++
      [(data.task_id.getD 0,
        data.remind_at.getD { year := 0, month := 0, day := 0, hour := 0,
                              minute := 0, second := 0 })] })

/-- `handle_reminder_scheduled(event_data, event_id)`. -/
def handle_reminder_scheduled (data : EventData) (event_id source : String)
    (w : World) : HandlerResult × World :=
  run_handler (fun d => d.task_id.isSome && d.remind_at.isSome)
    reminder_scheduled_logic data event_id source w

/-- Business logic of `handle_reminder_triggered`: create the in-app
notification and report `"notification_created"`. -/
def reminder_triggered_logic (data : EventData) (w : World) :
    HandlerResult × World :=
  ({ status := Status.ok, actions := ["notification_created"], reason := none },
   { w with notifications := w.notifications ++
      [(data.user_id.getD "", data.task_title.getD "")] })

/-- `handle_reminder_triggered(event_data, event_id)`. -/
def handle_reminder_triggered (data : EventData) (event_id source : String)
    (w : World) : HandlerResult × World :=
  run_handler
    (fun d => d.task_id.isSome && d.user_id.isSome && d.task_title.isSome &&
      d.due_date.isSome)
    reminder_triggered_logic data event_id source w

/-- The six handled event types. -/
inductive EventType where
  | task_created
  | task_updated
  | task_completed
  | task_deleted
  | reminder_scheduled
  | reminder_triggered
deriving DecidableEq, Repr

/-- Dispatch an inbound event to its handler (one handler per event type). -/
def handle_event (et : EventType) (now : DateTime) (session : Option Unit)
    (data : EventData) (event_id source : String) (w : World) :
    HandlerResult × World :=
  match et with
  | EventType.task_created => handle_task_created now data event_id source w
  | EventType.task_updated => handle_task_updated data event_id source w
  | EventType.task_completed =>
    handle_task_completed session data event_id source w
  | EventType.task_deleted => handle_task_deleted data event_id source w
  | EventType.reminder_scheduled =>
    handle_reminder_scheduled data event_id source w
  | EventType.reminder_triggered =>
    handle_reminder_triggered data event_id source w

/-! ## Circuit breaker lemmas and theorems -/

/-- Below the failure threshold, iterated failures leave a fresh breaker
CLOSED with the failure count equal to the number of failures. -/
lemma iterate_failures_below (t r now : Nat) :
    ∀ k, k < t →
      (CircuitBreaker.iterate_failures (CircuitBreaker.mk' t r) now k).state =
        BreakerState.CLOSED ∧
      (CircuitBreaker.iterate_failures (CircuitBreaker.mk' t r) now k).failure_count
        = k ∧
      (CircuitBreaker.iterate_failures (CircuitBreaker.mk' t r) now
        k).failure_threshold = t := by
  intro k
  induction k with
  | zero => intro _; exact ⟨rfl, rfl, rfl⟩
  | succ n ih =>
    intro hlt
    obtain ⟨hs, hc, ht⟩ := ih (Nat.lt_of_succ_lt hlt)
    unfold CircuitBreaker.iterate_failures
    cases hcb : CircuitBreaker.iterate_failures (CircuitBreaker.mk' t r) now n with
    | mk st fc lf th rt =>
      rw [hcb] at hs hc ht
      simp only at hs hc ht
      subst hs
      subst hc
      subst ht
      unfold CircuitBreaker.record_failure
      have hnotyet : ¬ th ≤ fc + 1 := by omega
      simp [hnotyet]

/-- C2: the circuit breaker is the spec's state machine: `N` consecutive
failures with threshold `N` trip a fresh breaker CLOSED→OPEN while fewer
than `N` leave it CLOSED; a success while CLOSED resets the failure count
and stays CLOSED; once the reset timeout has elapsed since the last failure,
the next `is_open` check on an OPEN breaker moves it to HALF_OPEN and
reports not-open; in HALF_OPEN a success closes the circuit with a zero
failure count and a failure reopens it. -/
theorem circuit_breaker_state_machine :
    (∀ N r now, 0 < N →
      (CircuitBreaker.iterate_failures (CircuitBreaker.mk' N r) now N).state =
        BreakerState.OPEN) ∧
    (∀ N r now k, k < N →
      (CircuitBreaker.iterate_failures (CircuitBreaker.mk' N r) now k).state =
        BreakerState.CLOSED) ∧
    (∀ b : CircuitBreaker, b.state = BreakerState.CLOSED →
      b.record_success.failure_count = 0 ∧
      b.record_success.state = BreakerState.CLOSED) ∧
    (∀ (b : CircuitBreaker) (now t : Nat), b.state = BreakerState.OPEN →
      b.last_failure_time = some t → t + b.reset_timeout ≤ now →
      b.is_open now = (false, { b with state := BreakerState.HALF_OPEN })) ∧
    (∀ b : CircuitBreaker, b.state = BreakerState.HALF_OPEN →
      b.record_success.state = BreakerState.CLOSED ∧
      b.record_success.failure_count = 0) ∧
    (∀ (b : CircuitBreaker) (now : Nat), b.state = BreakerState.HALF_OPEN →
      (b.record_failure now).state = BreakerState.OPEN) := by
  refine ⟨?_, ?_, ?_, ?_, ?_, ?_⟩
  · intro N r now hN
    obtain ⟨M, rfl⟩ : ∃ M, N = M + 1 := ⟨N - 1, by omega⟩
    obtain ⟨hs, hc, ht⟩ := iterate_failures_below (M + 1) r now M (by omega)
    unfold CircuitBreaker.iterate_failures
    cases hcb : CircuitBreaker.iterate_failures (CircuitBreaker.mk' (M + 1) r) now M with
    | mk st fc lf th rt =>
      rw [hcb] at hs hc ht
      simp only at hs hc ht
      subst hs
      subst hc
      subst ht
      unfold CircuitBreaker.record_failure
      simp
  · intro N r now k hk
    exact (iterate_failures_below N r now k hk).1
  · intro b hb
    cases b with
    | mk st fc lf th rt =>
      simp only at hb
      subst hb
      exact ⟨rfl, rfl⟩
  · intro b now t hb hlf helapsed
    unfold CircuitBreaker.is_open
    rw [hb, hlf]
    simp [helapsed]
  · intro b hb
    cases b with
    | mk st fc lf th rt =>
      simp only at hb
      subst hb
      exact ⟨rfl, rfl⟩
  · intro b now hb
    cases b with
    | mk st fc lf th rt =>
      simp only at hb
      subst hb
      rfl

/-- Witness for `circuit_breaker_state_machine` at threshold 3, reset
timeout 5. -/
theorem circuit_breaker_state_machine_witness :
    (CircuitBreaker.iterate_failures (CircuitBreaker.mk' 3 5) 100 3).state =
      BreakerState.OPEN ∧
    (CircuitBreaker.iterate_failures (CircuitBreaker.mk' 3 5) 100 2).state =
      BreakerState.CLOSED ∧
    (CircuitBreaker.mk' 3 5).record_success.failure_count = 0 ∧
    ({ state := BreakerState.OPEN, failure_count := 3,
       last_failure_time := some 100, failure_threshold := 3,
       reset_timeout := 5 } : CircuitBreaker).is_open 105 =
      (false, { state := BreakerState.HALF_OPEN, failure_count := 3,
                last_failure_time := some 100, failure_threshold := 3,
                reset_timeout := 5 }) ∧
    ({ state := BreakerState.HALF_OPEN, failure_count := 3,
       last_failure_time := some 100, failure_threshold := 3,
       reset_timeout := 5 } : CircuitBreaker).record_success.state =
      BreakerState.CLOSED ∧
    (({ state := BreakerState.HALF_OPEN, failure_count := 3,
        last_failure_time := some 100, failure_threshold := 3,
        reset_timeout := 5 } : CircuitBreaker).record_failure 106).state =
      BreakerState.OPEN := by
  refine ⟨circuit_breaker_state_machine.1 3 5 100 (by decide),
    circuit_breaker_state_machine.2.1 3 5 100 2 (by decide),
    (circuit_breaker_state_machine.2.2.1 _ rfl).1,
    circuit_breaker_state_machine.2.2.2.1 _ 105 100 rfl rfl (by decide),
    (circuit_breaker_state_machine.2.2.2.2.1 _ rfl).1,
    circuit_breaker_state_machine.2.2.2.2.2 _ 106 rfl⟩

/-- C4: the circuit-breaker wrapper: while the breaker is OPEN and the reset
timeout has not elapsed, the downstream callable is not invoked and the
wrapper returns a null result without raising; when the breaker admits the
call, an exception from the callable records a failure and is re-raised
unchanged, and a normal return records a success and is passed through. -/
theorem with_circuit_breaker_spec :
    (∀ (A : Type) (b : CircuitBreaker) (now t : Nat) (call : CallOutcome A),
      b.state = BreakerState.OPEN → b.last_failure_time = some t →
      now < t + b.reset_timeout →
      with_circuit_breaker b now call =
        { result := CallOutcome.ok none, breaker := b, invoked := false }) ∧
    (∀ (A : Type) (b : CircuitBreaker) (now : Nat) (e : String),
      (b.is_open now).1 = false →
      with_circuit_breaker b now (CallOutcome.raises e : CallOutcome A) =
        { result := CallOutcome.raises e,
          breaker := ((b.is_open now).2).record_failure now, invoked := true }) ∧
    (∀ (A : Type) (b : CircuitBreaker) (now : Nat) (a : A),
      (b.is_open now).1 = false →
      with_circuit_breaker b now (CallOutcome.ok a) =
        { result := CallOutcome.ok (some a),
          breaker := ((b.is_open now).2).record_success, invoked := true }) := by
  refine ⟨?_, ?_, ?_⟩
  · intro A b now t call hb hlf hnot
    have hopen : b.is_open now = (true, b) := by
      unfold CircuitBreaker.is_open
      rw [hb, hlf]
      have : ¬ t + b.reset_timeout ≤ now := by omega
      simp [this]
    unfold with_circuit_breaker
    simp [hopen]
  · intro A b now e hallow
    unfold with_circuit_breaker
    simp [hallow]
  · intro A b now a hallow
    unfold with_circuit_breaker
    simp [hallow]

/-- Witness for `with_circuit_breaker_spec`: a blocked call on an OPEN
breaker, a re-raised failure and a passed-through success on a fresh
breaker. -/
theorem with_circuit_breaker_spec_witness :
    with_circuit_breaker
      ({ state := BreakerState.OPEN, failure_count := 5,
         last_failure_time := some 100, failure_threshold := 5,
         reset_timeout := 30 } : CircuitBreaker) 110
      (CallOutcome.ok (37 : Nat)) =
      { result := CallOutcome.ok none,
        breaker := { state := BreakerState.OPEN, failure_count := 5,
                     last_failure_time := some 100, failure_threshold := 5,
                     reset_timeout := 30 }, invoked := false } ∧
    with_circuit_breaker (CircuitBreaker.mk' 5 30) 0
      (CallOutcome.raises "boom" : CallOutcome Nat) =
      { result := CallOutcome.raises "boom",
        breaker := ((CircuitBreaker.mk' 5 30).is_open 0).2.record_failure 0,
        invoked := true } ∧
    with_circuit_breaker (CircuitBreaker.mk' 5 30) 0 (CallOutcome.ok (7 : Nat)) =
      { result := CallOutcome.ok (some 7),
        breaker := ((CircuitBreaker.mk' 5 30).is_open 0).2.record_success,
        invoked := true } :=
  ⟨with_circuit_breaker_spec.1 Nat _ 110 100 _ rfl rfl (by decide),
   with_circuit_breaker_spec.2.1 Nat _ 0 "boom" (by decide),
   with_circuit_breaker_spec.2.2 Nat _ 0 7 (by decide)⟩

/-! ## Event publisher theorems -/

/-- C5: `publish` has fire-and-forget semantics: every transport failure —
connection error, timeout, unexpected exception, or a broker response with
a non-2xx status — yields the boolean `false` (the embedding is a total
function, so nothing is ever raised to the caller), while a 2xx response
(200/201/204) yields `true`. -/
theorem publish_fire_and_forget
    (ps : PublisherState) (topic event_type : String)
    (data : List (String × String)) (user_id source : String) (now : Nat) :
    (∀ outcome : TransportOutcome,
      outcome = TransportOutcome.connect_error ∨
      outcome = TransportOutcome.timeout_error ∨
      outcome = TransportOutcome.unexpected_error →
      (EventPublisher.publish ps topic event_type data user_id source now
        outcome).2.1 = false) ∧
    (∀ status : Nat, status < 200 ∨ 300 ≤ status →
      (EventPublisher.publish ps topic event_type data user_id source now
        (TransportOutcome.response status)).2.1 = false) ∧
    (∀ status : Nat, status = 200 ∨ status = 201 ∨ status = 204 →
      (EventPublisher.publish ps topic event_type data user_id source now
        (TransportOutcome.response status)).2.1 = true) := by
  refine ⟨?_, ?_, ?_⟩
  · intro outcome h
    rcases h with h | h | h
    all_goals subst h
    all_goals rfl
  · intro status h
    have h200 : status ≠ 200 := by omega
    have h201 : status ≠ 201 := by omega
    have h204 : status ≠ 204 := by omega
    unfold EventPublisher.publish
    simp [is_success_status, h200, h201, h204]
  · intro status h
    unfold EventPublisher.publish
    rcases h with h | h | h
    all_goals subst h
    all_goals simp [is_success_status]

/-- Witness for `publish_fire_and_forget`: a connection error and a 500
response yield `false`; a 204 response yields `true`. -/
theorem publish_fire_and_forget_witness :
    (EventPublisher.publish { next_id := 0 } "tasks" "task.created" []
      "user123" "todo-backend" 17 TransportOutcome.connect_error).2.1 = false ∧
    (EventPublisher.publish { next_id := 0 } "tasks" "task.created" []
      "user123" "todo-backend" 17 (TransportOutcome.response 500)).2.1 = false ∧
    (EventPublisher.publish { next_id := 0 } "tasks" "task.created" []
      "user123" "todo-backend" 17 (TransportOutcome.response 204)).2.1 = true :=
  ⟨(publish_fire_and_forget { next_id := 0 } "tasks" "task.created" []
      "user123" "todo-backend" 17).1 _ (Or.inl rfl),
   (publish_fire_and_forget { next_id := 0 } "tasks" "task.created" []
      "user123" "todo-backend" 17).2.1 500 (by omega),
   (publish_fire_and_forget { next_id := 0 } "tasks" "task.created" []
      "user123" "todo-backend" 17).2.2 204 (by simp)⟩

/-- C8: every envelope built by `publish` carries `specversion` `"1.0"`, the
event type, the source, the creation time, `partitionkey` equal to the
acting user's identifier, and a data payload carrying that `user_id`; and
two successive `publish` calls produce envelopes with distinct `id`
values. -/
theorem publish_envelope_invariants
    (ps : PublisherState) (topic topic' event_type event_type' : String)
    (data data' : List (String × String))
    (user_id user_id' source source' : String) (now now' : Nat)
    (outcome outcome' : TransportOutcome) :
    (EventPublisher.publish ps topic event_type data user_id source now
      outcome).1.specversion = "1.0" ∧
    (EventPublisher.publish ps topic event_type data user_id source now
      outcome).1.type = event_type ∧
    (EventPublisher.publish ps topic event_type data user_id source now
      outcome).1.source = source ∧
    (EventPublisher.publish ps topic event_type data user_id source now
      outcome).1.time = now ∧
    (EventPublisher.publish ps topic event_type data user_id source now
      outcome).1.partitionkey = user_id ∧
    (EventPublisher.publish ps topic event_type data user_id source now
      outcome).1.data.user_id = user_id ∧
    (EventPublisher.publish
      (EventPublisher.publish ps topic event_type data user_id source now
        outcome).2.2 topic' event_type' data' user_id' source' now'
      outcome').1.id ≠
      (EventPublisher.publish ps topic event_type data user_id source now
        outcome).1.id := by
  refine ⟨rfl, rfl, rfl, rfl, rfl, rfl, ?_⟩
  show ps.next_id + 1 ≠ ps.next_id
  omega

/-! ## Recurrence calculator theorems -/

/-- Stepping to the next calendar day keeps the time of day. -/
lemma nextDay_time (d : DateTime) :
    d.nextDay.hour = d.hour ∧ d.nextDay.minute = d.minute ∧
    d.nextDay.second = d.second := by
  unfold DateTime.nextDay
  split
  · exact ⟨rfl, rfl, rfl⟩
  · split
    · exact ⟨rfl, rfl, rfl⟩
    · exact ⟨rfl, rfl, rfl⟩

/-- Adding calendar days keeps the time of day. -/
lemma addDays_time (n : Nat) :
    ∀ d : DateTime, (d.addDays n).hour = d.hour ∧
      (d.addDays n).minute = d.minute ∧ (d.addDays n).second = d.second := by
  induction n with
  | zero => intro d; exact ⟨rfl, rfl, rfl⟩
  | succ m ih =>
    intro d
    obtain ⟨h1, h2, h3⟩ := ih d.nextDay
    obtain ⟨g1, g2, g3⟩ := nextDay_time d
    exact ⟨h1.trans g1, h2.trans g2, h3.trans g3⟩

/-- C6: `calculate_next_due_date` adds one calendar day for `"daily"`, seven
for `"weekly"`, and one clamped calendar month for `"monthly"` (Jan 31 +
monthly lands on the last day of February), keeps the exact time of day in
every case, and treats every unrecognized interval exactly like `"daily"` —
checked on the spec's concrete vectors and in general. -/
theorem calculate_next_due_date_spec :
    calculate_next_due_date
      { year := 2025, month := 1, day := 15, hour := 10, minute := 0,
        second := 0 } "daily" =
      { year := 2025, month := 1, day := 16, hour := 10, minute := 0,
        second := 0 } ∧
    calculate_next_due_date
      { year := 2025, month := 1, day := 15, hour := 10, minute := 0,
        second := 0 } "weekly" =
      { year := 2025, month := 1, day := 22, hour := 10, minute := 0,
        second := 0 } ∧
    calculate_next_due_date
      { year := 2025, month := 1, day := 15, hour := 10, minute := 0,
        second := 0 } "monthly" =
      { year := 2025, month := 2, day := 15, hour := 10, minute := 0,
        second := 0 } ∧
    calculate_next_due_date
      { year := 2025, month := 1, day := 31, hour := 10, minute := 0,
        second := 0 } "monthly" =
      { year := 2025, month := 2, day := 28, hour := 10, minute := 0,
        second := 0 } ∧
    (∀ d : DateTime, calculate_next_due_date d "daily" = d.addDays 1 ∧
      calculate_next_due_date d "weekly" = d.addDays 7 ∧
      (calculate_next_due_date d "monthly").month =
        (if d.month = 12 then 1 else d.month + 1) ∧
      (calculate_next_due_date d "monthly").year =
        (if d.month = 12 then d.year + 1 else d.year) ∧
      (calculate_next_due_date d "monthly").day =
        min d.day (daysInMonth (if d.month = 12 then d.year + 1 else d.year)
          (if d.month = 12 then 1 else d.month + 1))) ∧
    (∀ (d : DateTime) (interval : String),
      interval ≠ "daily" → interval ≠ "weekly" → interval ≠ "monthly" →
      calculate_next_due_date d interval = calculate_next_due_date d "daily") ∧
    (∀ (d : DateTime) (interval : String),
      (calculate_next_due_date d interval).hour = d.hour ∧
      (calculate_next_due_date d interval).minute = d.minute ∧
      (calculate_next_due_date d interval).second = d.second) := by
  refine ⟨?_, ?_, ?_, ?_, ?_, ?_, ?_⟩
  · simp [calculate_next_due_date, DateTime.addDays, DateTime.nextDay,
      daysInMonth, isLeapYear]
  · simp [calculate_next_due_date, DateTime.addDays, DateTime.nextDay,
      daysInMonth, isLeapYear]
  · simp [calculate_next_due_date, DateTime.addOneMonth, daysInMonth,
      isLeapYear]
  · simp [calculate_next_due_date, DateTime.addOneMonth, daysInMonth,
      isLeapYear]
  · intro d
    unfold calculate_next_due_date
    refine ⟨by simp, by simp, ?_, ?_, ?_⟩
    all_goals simp [DateTime.addOneMonth]
  · intro d interval h1 h2 h3
    unfold calculate_next_due_date
    simp [h1, h2, h3]
  · intro d interval
    unfold calculate_next_due_date
    by_cases h1 : interval = "daily"
    · simp only [h1]
      simp
      exact addDays_time 1 d
    · by_cases h2 : interval = "weekly"
      · simp [h1, h2]
        exact addDays_time 7 d
      · by_cases h3 : interval = "monthly"
        · simp [h1, h2, h3, DateTime.addOneMonth]
        · simp [h1, h2, h3]
          exact addDays_time 1 d

/-- Witness for `calculate_next_due_date_spec`: the interval `"yearly"` is
unrecognized and behaves exactly like `"daily"` on the spec's vector. -/
theorem calculate_next_due_date_spec_witness :
    calculate_next_due_date
      { year := 2025, month := 1, day := 15, hour := 10, minute := 0,
        second := 0 } "yearly" =
      calculate_next_due_date
        { year := 2025, month := 1, day := 15, hour := 10, minute := 0,
          second := 0 } "daily" :=
  calculate_next_due_date_spec.2.2.2.2.2.1
    { year := 2025, month := 1, day := 15, hour := 10, minute := 0,
      second := 0 } "yearly" (by simp) (by simp) (by simp)

/-! ## State store theorems -/

/-- C9: `add_message_to_state` keeps at most `MAX_MESSAGES` messages: the
new message is appended (and is always the last element of the result), and
when the append would exceed `MAX_MESSAGES`, exactly the most recent
`MAX_MESSAGES` messages are kept — the result is a suffix, of length
`MAX_MESSAGES`, of the appended list, with the oldest messages dropped. -/
theorem add_message_window
    (state : ConversationState) (role content : String)
    (tool_calls : Option (List String)) (now : String) :
    (add_message_to_state state role content tool_calls now).messages.length ≤
      MAX_MESSAGES ∧
    (add_message_to_state state role content tool_calls now).messages.getLast?
      = some (build_message role content tool_calls now) ∧
    (state.messages.length + 1 ≤ MAX_MESSAGES →
      (add_message_to_state state role content tool_calls now).messages =
        state.messages ++ [build_message role content tool_calls now]) ∧
    (MAX_MESSAGES < state.messages.length + 1 →
      (add_message_to_state state role content tool_calls now).messages =
        (state.messages ++ [build_message role content tool_calls now]).drop
          (state.messages.length + 1 - MAX_MESSAGES) ∧
      (add_message_to_state state role content tool_calls now).messages.length
        = MAX_MESSAGES ∧
      (add_message_to_state state role content tool_calls now).messages <:+
        state.messages ++ [build_message role content tool_calls now]) := by
  have hm : (add_message_to_state state role content tool_calls now).messages =
      if MAX_MESSAGES < state.messages.length + 1 then
        (state.messages ++ [build_message role content tool_calls now]).drop
          (state.messages.length + 1 - MAX_MESSAGES)
      else state.messages ++ [build_message role content tool_calls now] := by
    unfold add_message_to_state
    simp
  by_cases h : MAX_MESSAGES < state.messages.length + 1
  · rw [if_pos h] at hm
    have h200 : MAX_MESSAGES = 200 := rfl
    have hk : state.messages.length + 1 - MAX_MESSAGES ≤ state.messages.length := by
      omega
    have hdrop : (state.messages ++
        [build_message role content tool_calls now]).drop
        (state.messages.length + 1 - MAX_MESSAGES) =
        state.messages.drop (state.messages.length + 1 - MAX_MESSAGES) ++
          [build_message role content tool_calls now] :=
      List.drop_append_of_le_length hk
    refine ⟨?_, ?_, ?_, ?_⟩
    · rw [hm]
      simp
      omega
    · rw [hm, hdrop]
      simp
    · intro hle
      omega
    · intro _
      refine ⟨hm, ?_, ?_⟩
      · rw [hm]
        simp
        omega
      · rw [hm]
        exact List.drop_suffix _ _
  · rw [if_neg h] at hm
    refine ⟨?_, ?_, ?_, ?_⟩
    · rw [hm]
      simp
      omega
    · rw [hm]
      simp
    · intro _
      exact hm
    · intro hgt
      exact absurd hgt h

/-- Witness for `add_message_window`: adding to a conversation that already
holds 200 messages truncates to the most recent 200 messages. -/
theorem add_message_window_witness :
    MAX_MESSAGES <
      (List.replicate 200 (build_message "user" "old" none "t0")).length + 1 ∧
    (add_message_to_state
      { conversation_id := "c1", user_id := "u1", created_at := "t0",
        updated_at := "t0",
        messages := List.replicate 200 (build_message "user" "old" none "t0") }
      "user" "hi" none "t1").messages.length = MAX_MESSAGES :=
  ⟨by simp only [List.length_replicate, MAX_MESSAGES]; omega,
   ((add_message_window
      { conversation_id := "c1", user_id := "u1", created_at := "t0",
        updated_at := "t0",
        messages := List.replicate 200 (build_message "user" "old" none "t0") }
      "user" "hi" none "t1").2.2.2
        (by simp only [List.length_replicate, MAX_MESSAGES]; omega)).2.1⟩

/-- `splitOnColon` never returns an empty list of parts. -/
lemma splitOnColon_ne_nil (l : List Char) : splitOnColon l ≠ [] := by
  induction l with
  | nil => simp [splitOnColon]
  | cons a rest ih =>
    unfold splitOnColon
    by_cases h : a = ':'
    · simp [h]
    · simp only [h, if_neg]
      cases hr : splitOnColon rest with
      | nil => simp
      | cons p ps => simp [h]

/-- A colon-free string is a single part. -/
lemma splitOnColon_no_colon (u : List Char) (h : ':' ∉ u) :
    splitOnColon u = [u] := by
  induction u with
  | nil => rfl
  | cons a rest ih =>
    have ha : a ≠ ':' := fun hh => h (hh ▸ List.mem_cons_self a rest)
    have hr : ':' ∉ rest := fun hh => h (List.mem_cons_of_mem a hh)
    unfold splitOnColon
    rw [ih hr]
    simp [ha]

/-- Prepending a colon-free string extends the first part of the split. -/
lemma splitOnColon_append (u : List Char) (h : ':' ∉ u) :
    ∀ (ys p : List Char) (ps : List (List Char)), splitOnColon ys = p :: ps →
      splitOnColon (u ++ ys) = (u ++ p) :: ps := by
  induction u with
  | nil => intro ys p ps hys; simpa using hys
  | cons a rest ih =>
    intro ys p ps hys
    have ha : a ≠ ':' := fun hh => h (hh ▸ List.mem_cons_self a rest)
    have hr : ':' ∉ rest := fun hh => h (List.mem_cons_of_mem a hh)
    have := ih hr ys p ps hys
    show splitOnColon (a :: (rest ++ ys)) = (a :: (rest ++ p)) :: ps
    unfold splitOnColon
    rw [this]
    simp [ha]

/-- Splitting after a leading colon yields a leading empty part. -/
lemma splitOnColon_cons_colon (ys : List Char) :
    splitOnColon (':' :: ys) = [] :: splitOnColon ys := rfl

/-- The number of parts is the number of colons plus one. -/
lemma splitOnColon_length (l : List Char) :
    (splitOnColon l).length = l.count ':' + 1 := by
  induction l with
  | nil => simp [splitOnColon]
  | cons a rest ih =>
    unfold splitOnColon
    by_cases h : a = ':'
    · subst h
      simp [List.count_cons, ih]
    · cases hr : splitOnColon rest with
      | nil => exact absurd hr (splitOnColon_ne_nil rest)
      | cons p ps =>
        rw [hr] at ih
        simp only [List.length_cons] at ih
        simp [h, List.count_cons, ih]

/-- `validate_state_key` in equational form: accepted exactly when the key
starts with `"chat:"`, splits into three parts, and the middle part is the
expected user id. -/
lemma validate_state_key_iff (key expected : List Char) :
    validate_state_key key expected = true ↔
      (chatTag.isPrefixOf key = true ∧ (splitOnColon key).length = 3 ∧
        (splitOnColon key).get? 1 = some expected) := by
  unfold validate_state_key
  by_cases hp : chatTag.isPrefixOf key
  · rw [if_pos hp]
    rcases hs : splitOnColon key with _ | ⟨a, _ | ⟨b, _ | ⟨c, _ | ⟨d, tl⟩⟩⟩⟩
    · simp [hp]
    · simp [hp]
    · simp [hp]
    · simp [hp]
    · simp only [List.get?]
      constructor
      · intro hfalse
        exact absurd hfalse (by simp)
      · intro ⟨_, hlen, _⟩
        simp at hlen
  · simp [hp]

/-- The split of a generated key from colon-free components. -/
lemma splitOnColon_generate (u c : List Char) (hu : ':' ∉ u) (hc : ':' ∉ c) :
    splitOnColon (generate_state_key u c) = [['c', 'h', 'a', 't'], u, c] := by
  have h2 : splitOnColon (':' :: c) = [] :: [c] := by
    rw [splitOnColon_cons_colon, splitOnColon_no_colon c hc]
  have h3 : splitOnColon (u ++ ':' :: c) = (u ++ []) :: [c] :=
    splitOnColon_append u hu _ _ _ h2
  have h4 : splitOnColon (':' :: (u ++ ':' :: c)) = [] :: ((u ++ []) :: [c]) := by
    rw [splitOnColon_cons_colon, h3]
  have h5 : generate_state_key u c =
      ['c', 'h', 'a', 't'] ++ (':' :: (u ++ ':' :: c)) := by
    unfold generate_state_key chatTag
    simp
  rw [h5, splitOnColon_append ['c', 'h', 'a', 't'] (by decide) _ _ _ h4]
  simp

/-- The colon count of a generated key. -/
lemma count_generate (u c : List Char) :
    (generate_state_key u c).count ':' = u.count ':' + c.count ':' + 2 := by
  unfold generate_state_key
  rw [List.count_append, List.count_append]
  have h1 : chatTag.count ':' = 1 := by decide
  have h2 : (':' :: c).count ':' = c.count ':' + 1 := by
    simp [List.count_cons]
  rw [h1, h2]
  omega

/-- C10: `validate_state_key(key, expected_user_id)` accepts exactly the keys
that start with `"chat:"`, split on `":"` into three parts with the middle
part equal to `expected_user_id`; hence a key generated by
`generate_state_key` from colon-free `user_id`/`conversation_id` validates
against that `user_id`, while a colon in either component makes the
generated key fail validation. -/
theorem validate_state_key_spec :
    (∀ key expected : List Char, validate_state_key key expected = true ↔
      (chatTag.isPrefixOf key = true ∧ (splitOnColon key).length = 3 ∧
        (splitOnColon key).get? 1 = some expected)) ∧
    (∀ u c : List Char, ':' ∉ u → ':' ∉ c →
      validate_state_key (generate_state_key u c) u = true) ∧
    (∀ u c : List Char, ':' ∈ u ∨ ':' ∈ c →
      validate_state_key (generate_state_key u c) u = false) := by
  refine ⟨validate_state_key_iff, ?_, ?_⟩
  · intro u c hu hc
    rw [validate_state_key_iff]
    refine ⟨?_, ?_, ?_⟩
    · rw [List.isPrefixOf_iff_prefix]
      exact ⟨u ++ ':' :: c, rfl⟩
    · rw [splitOnColon_generate u c hu hc]
      rfl
    · rw [splitOnColon_generate u c hu hc]
      rfl
  · intro u c hmem
    cases hv : validate_state_key (generate_state_key u c) u with
    | false => rfl
    | true =>
      exfalso
      have hlen := ((validate_state_key_iff _ _).mp hv).2.1
      rw [splitOnColon_length, count_generate] at hlen
      rcases hmem with hm | hm
      · have := List.count_pos_iff.mpr hm
        omega
      · have := List.count_pos_iff.mpr hm
        omega

/-- Witness for `validate_state_key_spec`: the key generated for user
`"u1"`, conversation `"conv1"` validates for `"u1"`, and a conversation id
containing `":"` fails. -/
theorem validate_state_key_spec_witness :
    validate_state_key (generate_state_key ['u', '1'] ['c', '1']) ['u', '1']
      = true ∧
    validate_state_key (generate_state_key ['u', '1'] ['c', ':', '1'])
      ['u', '1'] = false :=
  ⟨validate_state_key_spec.2.1 ['u', '1'] ['c', '1'] (by decide) (by decide),
   validate_state_key_spec.2.2 ['u', '1'] ['c', ':', '1']
     (Or.inr (by decide))⟩

/-! ## Event handler theorems -/

/-- A handler invocation that reported `ok` passed all three pre-checks:
the source was not the handler identity, the event was not yet in the
ledger, and the required fields were present. -/
lemma run_handler_checks (validate : EventData → Bool)
    (logic : EventData → World → HandlerResult × World)
    (data : EventData) (event_id source : String) (w : World)
    (hok : (run_handler validate logic data event_id source w).1.status =
      Status.ok) :
    is_handler_generated source = false ∧
    is_event_processed w event_id = false ∧ validate data = true := by
  by_cases h1 : is_handler_generated source = true
  · simp [run_handler, h1] at hok
  · by_cases h2 : is_event_processed w event_id = true
    · simp [run_handler, h1, h2] at hok
    · by_cases h3 : validate data = true
      · exact ⟨by simpa using h1, by simpa using h2, h3⟩
      · simp [run_handler, h1, h2, h3] at hok

/-- With all pre-checks passed, a handler runs its business logic and marks
the event processed exactly when the logic reported `ok`. -/
lemma run_handler_eq (validate : EventData → Bool)
    (logic : EventData → World → HandlerResult × World)
    (data : EventData) (event_id source : String) (w : World)
    (h1 : is_handler_generated source = false)
    (h2 : is_event_processed w event_id = false)
    (h3 : validate data = true) :
    run_handler validate logic data event_id source w =
      (if (logic data w).1.status = Status.ok then
        ((logic data w).1, mark_event_processed (logic data w).2 event_id)
      else logic data w) := by
  unfold run_handler
  simp [h1, h2, h3]

/-- A handler invocation that reported `ok` left the event in the ledger. -/
lemma run_handler_marks (validate : EventData → Bool)
    (logic : EventData → World → HandlerResult × World)
    (data : EventData) (event_id source : String) (w : World)
    (hok : (run_handler validate logic data event_id source w).1.status =
      Status.ok) :
    is_event_processed
      (run_handler validate logic data event_id source w).2 event_id = true := by
  obtain ⟨h1, h2, h3⟩ := run_handler_checks validate logic data event_id source w hok
  rw [run_handler_eq validate logic data event_id source w h1 h2 h3] at hok ⊢
  by_cases h4 : (logic data w).1.status = Status.ok
  · simp [h4, is_event_processed, mark_event_processed]
  · rw [if_neg h4] at hok
    exact absurd hok h4

/-- A duplicate delivery (source admitted, event already in the ledger) is
skipped with reason `"duplicate"` and the world is untouched. -/
lemma run_handler_dup (validate : EventData → Bool)
    (logic : EventData → World → HandlerResult × World)
    (data : EventData) (event_id source : String) (w : World)
    (h1 : is_handler_generated source = false)
    (h2 : is_event_processed w event_id = true) :
    run_handler validate logic data event_id source w =
      ({ status := Status.skipped, actions := [], reason := some "duplicate" },
       w) := by
  unfold run_handler
  simp [h1, h2]

/-- Once a first invocation reported `ok`, a second invocation with the same
event id and source skips as a duplicate without touching the world. -/
lemma run_handler_idempotent (v1 : EventData → Bool)
    (l1 : EventData → World → HandlerResult × World) (v2 : EventData → Bool)
    (l2 : EventData → World → HandlerResult × World)
    (data data2 : EventData) (event_id source : String) (w : World)
    (hok : (run_handler v1 l1 data event_id source w).1.status = Status.ok) :
    run_handler v2 l2 data2 event_id source
        (run_handler v1 l1 data event_id source w).2 =
      ({ status := Status.skipped, actions := [], reason := some "duplicate" },
       (run_handler v1 l1 data event_id source w).2) :=
  run_handler_dup v2 l2 data2 event_id source _
    (run_handler_checks v1 l1 data event_id source w hok).1
    (run_handler_marks v1 l1 data event_id source w hok)

/-- A handler-sourced event is refused outright: skipped, no actions, world
untouched. -/
lemma run_handler_handler_source (validate : EventData → Bool)
    (logic : EventData → World → HandlerResult × World)
    (data : EventData) (event_id source : String) (w : World)
    (h : is_handler_generated source = true) :
    run_handler validate logic data event_id source w =
      ({ status := Status.skipped, actions := [],
         reason := some "handler_generated" }, w) := by
  unfold run_handler
  simp [h]

/-- C1: for every event type, once a first invocation with some event id
returned status `ok`, a second invocation of the same handler with the same
event id and source returns status `skipped` with reason `"duplicate"`,
reports no actions, and performs zero side effects: the world — ledger,
published events, created tasks, jobs and notifications — is exactly the
world left by the first invocation. -/
theorem handler_idempotent (et : EventType) (now now2 : DateTime)
    (session session2 : Option Unit) (data data2 : EventData)
    (event_id source : String) (w : World)
    (hok : (handle_event et now session data event_id source w).1.status =
      Status.ok) :
    handle_event et now2 session2 data2 event_id source
        (handle_event et now session data event_id source w).2 =
      ({ status := Status.skipped, actions := [], reason := some "duplicate" },
       (handle_event et now session data event_id source w).2) := by
  cases et
  all_goals
    simp only [handle_event, handle_task_created, handle_task_updated,
      handle_task_completed, handle_task_deleted, handle_reminder_scheduled,
      handle_reminder_triggered] at hok ⊢
  all_goals exact run_handler_idempotent _ _ _ _ data data2 event_id source w hok

/-- Witness for `handler_idempotent`: a `task.deleted` event processed twice. -/
theorem handler_idempotent_witness :
    (handle_event EventType.task_deleted
      { year := 2025, month := 1, day := 1, hour := 0, minute := 0,
        second := 0 } none { task_id := some 1, user_id := some "u1" } "e1"
      BACKEND_SOURCE emptyWorld).1.status = Status.ok ∧
    handle_event EventType.task_deleted
        { year := 2025, month := 1, day := 1, hour := 0, minute := 0,
          second := 0 } none { task_id := some 1, user_id := some "u1" } "e1"
        BACKEND_SOURCE
        (handle_event EventType.task_deleted
          { year := 2025, month := 1, day := 1, hour := 0, minute := 0,
            second := 0 } none { task_id := some 1, user_id := some "u1" } "e1"
          BACKEND_SOURCE emptyWorld).2 =
      ({ status := Status.skipped, actions := [], reason := some "duplicate" },
       (handle_event EventType.task_deleted
         { year := 2025, month := 1, day := 1, hour := 0, minute := 0,
           second := 0 } none { task_id := some 1, user_id := some "u1" } "e1"
         BACKEND_SOURCE emptyWorld).2) := by
  have hok : (handle_event EventType.task_deleted
      { year := 2025, month := 1, day := 1, hour := 0, minute := 0,
        second := 0 } none { task_id := some 1, user_id := some "u1" } "e1"
      BACKEND_SOURCE emptyWorld).1.status = Status.ok := by
    simp [handle_event, handle_task_deleted, run_handler, is_handler_generated,
      HANDLER_SOURCE, BACKEND_SOURCE, is_event_processed, emptyWorld,
      task_deleted_logic]
  exact ⟨hok, handler_idempotent EventType.task_deleted _ _ none none _ _
    "e1" BACKEND_SOURCE emptyWorld hok⟩

/-- C3: every handler refuses an event whose envelope source is the reserved
handler identity: the result is `skipped` (business logic never runs, so no
derived event is published) and the world — including the idempotency
ledger — is unchanged. -/
theorem handler_rejects_handler_source (et : EventType) (now : DateTime)
    (session : Option Unit) (data : EventData) (event_id : String)
    (w : World) :
    handle_event et now session data event_id HANDLER_SOURCE w =
      ({ status := Status.skipped, actions := [],
         reason := some "handler_generated" }, w) := by
  have h : is_handler_generated HANDLER_SOURCE = true := by
    simp [is_handler_generated]
  cases et
  all_goals
    simp only [handle_event, handle_task_created, handle_task_updated,
      handle_task_completed, handle_task_deleted, handle_reminder_scheduled,
      handle_reminder_triggered]
  all_goals exact run_handler_handler_source _ _ data event_id _ w h

/-- C7: for a fresh, well-formed `task.created` event (source admitted, not
yet in the ledger, required fields present): when `due_date` is present and
strictly in the future relative to processing time, the handler returns
`ok`, its action list is exactly `["reminder_scheduled"]`, and it performs
exactly one publish — a `reminder.scheduled` event whose source is the
handler identity; when `due_date` is absent or not in the future, the
handler returns `ok` with no actions and performs zero publish calls. -/
theorem handle_task_created_spec (now : DateTime) (data : EventData)
    (event_id source : String) (w : World)
    (h1 : is_handler_generated source = false)
    (h2 : is_event_processed w event_id = false)
    (h3 : data.task_id.isSome = true) (h4 : data.user_id.isSome = true) :
    (∀ d : DateTime, data.due_date = some d → now.ltb d = true →
      (handle_task_created now data event_id source w).1.status = Status.ok ∧
      (handle_task_created now data event_id source w).1.actions =
        ["reminder_scheduled"] ∧
      (handle_task_created now data event_id source w).2.published =
        w.published ++
          [{ topic := "reminders", event_type := "reminder.scheduled",
             source := HANDLER_SOURCE, task_id := data.task_id.getD 0,
             user_id := data.user_id.getD "", remind_at := d }]) ∧
    ((data.due_date = none ∨
        ∃ d : DateTime, data.due_date = some d ∧ now.ltb d = false) →
      (handle_task_created now data event_id source w).1.status = Status.ok ∧
      (handle_task_created now data event_id source w).1.actions = [] ∧
      (handle_task_created now data event_id source w).2.published =
        w.published) := by
  have hv : (data.task_id.isSome && data.user_id.isSome) = true := by
    simp [h3, h4]
  constructor
  · intro d hd hlt
    have hlogic : task_created_logic now data w =
        ({ status := Status.ok, actions := ["reminder_scheduled"],
           reason := none },
         { w with published := w.published ++
            [{ topic := "reminders", event_type := "reminder.scheduled",
               source := HANDLER_SOURCE, task_id := data.task_id.getD 0,
               user_id := data.user_id.getD "", remind_at := d }] }) := by
      unfold task_created_logic
      rw [hd]
      simp [hlt]
    unfold handle_task_created
    rw [run_handler_eq _ _ data event_id source w h1 h2 hv, hlogic]
    simp [mark_event_processed]
  · intro hcase
    have hlogic : task_created_logic now data w =
        ({ status := Status.ok, actions := [], reason := none }, w) := by
      unfold task_created_logic
      rcases hcase with hnone | ⟨d, hd, hlt⟩
      · rw [hnone]
      · rw [hd]
        simp [hlt]
    unfold handle_task_created
    rw [run_handler_eq _ _ data event_id source w h1 h2 hv, hlogic]
    simp [mark_event_processed]

/-- Witness for `handle_task_created_spec`: a task due one week after
processing time schedules exactly one handler-sourced reminder; a task with
no due date publishes nothing. -/
theorem handle_task_created_spec_witness :
    ((handle_task_created
      { year := 2025, month := 1, day := 1, hour := 0, minute := 0,
        second := 0 }
      { task_id := some 1, user_id := some "user123",
        due_date := some { year := 2025, month := 1, day := 8, hour := 0,
                           minute := 0, second := 0 } }
      "ev-future" BACKEND_SOURCE emptyWorld).1.actions =
      ["reminder_scheduled"] ∧
    (handle_task_created
      { year := 2025, month := 1, day := 1, hour := 0, minute := 0,
        second := 0 }
      { task_id := some 1, user_id := some "user123",
        due_date := some { year := 2025, month := 1, day := 8, hour := 0,
                           minute := 0, second := 0 } }
      "ev-future" BACKEND_SOURCE emptyWorld).2.published =
      [{ topic := "reminders", event_type := "reminder.scheduled",
         source := HANDLER_SOURCE, task_id := 1, user_id := "user123",
         remind_at := { year := 2025, month := 1, day := 8, hour := 0,
                        minute := 0, second := 0 } }]) ∧
    ((handle_task_created
      { year := 2025, month := 1, day := 1, hour := 0, minute := 0,
        second := 0 }
      { task_id := some 1, user_id := some "user123" } "ev-nodate"
      BACKEND_SOURCE emptyWorld).1.actions = [] ∧
    (handle_task_created
      { year := 2025, month := 1, day := 1, hour := 0, minute := 0,
        second := 0 }
      { task_id := some 1, user_id := some "user123" } "ev-nodate"
      BACKEND_SOURCE emptyWorld).2.published = []) := by
  have hsrc : is_handler_generated BACKEND_SOURCE = false := by
    simp [is_handler_generated, BACKEND_SOURCE, HANDLER_SOURCE]
  constructor
  · have h := (handle_task_created_spec
      { year := 2025, month := 1, day := 1, hour := 0, minute := 0,
        second := 0 }
      { task_id := some 1, user_id := some "user123",
        due_date := some { year := 2025, month := 1, day := 8, hour := 0,
                           minute := 0, second := 0 } }
      "ev-future" BACKEND_SOURCE emptyWorld hsrc
      (by simp [is_event_processed, emptyWorld]) rfl rfl).1
      { year := 2025, month := 1, day := 8, hour := 0, minute := 0,
        second := 0 } rfl (by decide)
    exact ⟨h.2.1, by rw [h.2.2]; rfl⟩
  · have h := (handle_task_created_spec
      { year := 2025, month := 1, day := 1, hour := 0, minute := 0,
        second := 0 }
      { task_id := some 1, user_id := some "user123" } "ev-nodate"
      BACKEND_SOURCE emptyWorld hsrc
      (by simp [is_event_processed, emptyWorld]) rfl rfl).2 (Or.inl rfl)
    exact ⟨h.2.1, by rw [h.2.2]; rfl⟩
